import Mathlib

/-!
Verification development for the per-session music playback core of the bot:
the FIFO song queue (services/music/queue.js), the in-memory session state
store (bot/state.js), the playback driver (bot/music/player.js), the
"Now Playing" status embed logic (bot/music/embed.js) and the voice-presence
teardown handler (bot/events/voiceStateUpdate.js).

The JavaScript sources are embedded shallowly:

* JS objects holding per-guild data become Lean structures; the lazily
  created Maps keyed by guild id (`queues` in queue.js, `guildState` in
  state.js) become total functions from guild ids, with the lazy default as
  the value of an untouched key — in the source an absent key and a
  freshly-created default entry are observably identical.
* `setGuildState(guildId, updates)` merges a partial record into the stored
  record with Object.assign; the partial record is embedded as a structure
  of Option fields (`none` = field absent from the update object).
* External resources (audio player, voice connection, Discord status
  message) are embedded as opaque numeric handles plus explicit liveness
  flags in a `World` record, so that the externally visible effects of the
  driver (destroying a connection, deleting a status message, starting the
  player) are part of the verified state.
* async control flow: the sequential paths of `startPlayback` are embedded
  as a sequential interpreter parameterised by the collaborator responses
  (music service queue, AI narrator, TTS); the re-entrancy question is
  embedded as a small-step machine over the program points of
  `startPlayback` separated by its `await` suspension points, with an
  explicit interleaving schedule for two invocations — faithful to the
  single-threaded event loop, where the code between two awaits runs
  atomically.
-/

/-- Track descriptor as produced by the resolver and stored in the queue
(services/music/queue.js documents the shape: title, url, duration in
seconds, thumbnail). -/
structure Song where
  title : String
  url : String
  duration : Nat
  thumbnail : String
deriving DecidableEq, Repr

/-- Guild (session) identifier — an opaque string key. -/
abbrev GuildId := String

/-- A voice connection handle; `channelId` mirrors
`connection.joinConfig.channelId`, which voiceStateUpdate.js reads to find
the channel the bot is bound to. -/
structure VoiceConn where
  channelId : Nat
deriving DecidableEq, Repr

/-- Per-guild playback state record, exactly the fields created by
`getOrCreateGuildState` in bot/state.js.  Player, connection, status
message and timer are opaque handles (the connection carries its join
channel id). -/
structure GuildState where
  isPlaying : Bool
  isPaused : Bool
  isIntroPlaying : Bool
  currentSong : Option Song
  currentPlayer : Option Nat
  currentConnection : Option VoiceConn
  statusMessage : Option Nat
  songStartTime : Option Nat
  progressTimer : Option Nat
deriving DecidableEq, Repr

/-- The default record installed by `getOrCreateGuildState` (bot/state.js
lines 59-69) and re-installed by `resetGuildState`. -/
def defaultGuildState : GuildState :=
  { isPlaying := false
    isPaused := false
    isIntroPlaying := false
    currentSong := none
    currentPlayer := none
    currentConnection := none
    statusMessage := none
    songStartTime := none
    progressTimer := none }

/-- A partial update object passed to `setGuildState`: each field is
either absent (`none`) or present with a value (`some v`).  For fields
whose value is itself optional, `some none` embeds an explicit
`field: null` in the JS update object. -/
structure GuildStateUpdate where
  isPlaying : Option Bool := none
  isPaused : Option Bool := none
  isIntroPlaying : Option Bool := none
  currentSong : Option (Option Song) := none
  currentPlayer : Option (Option Nat) := none
  currentConnection : Option (Option VoiceConn) := none
  statusMessage : Option (Option Nat) := none
  songStartTime : Option (Option Nat) := none
  progressTimer : Option (Option Nat) := none
deriving Repr

/-- Embeds `Object.assign(current, updates)`: every field present in the update
object overwrites the stored field, every absent field is left as it was
(bot/state.js line 97). -/
def applyUpdate (s : GuildState) (u : GuildStateUpdate) : GuildState :=
  { isPlaying := u.isPlaying.getD s.isPlaying
    isPaused := u.isPaused.getD s.isPaused
    isIntroPlaying := u.isIntroPlaying.getD s.isIntroPlaying
    currentSong := u.currentSong.getD s.currentSong
    currentPlayer := u.currentPlayer.getD s.currentPlayer
    currentConnection := u.currentConnection.getD s.currentConnection
    statusMessage := u.statusMessage.getD s.statusMessage
    songStartTime := u.songStartTime.getD s.songStartTime
    progressTimer := u.progressTimer.getD s.progressTimer }

/-- The `guildState` Map of bot/state.js as a total function; an untouched
key holds `defaultGuildState`, matching the lazy creation in
`getOrCreateGuildState`. -/
abbrev StateStore := GuildId → GuildState

/-- Source function `setGuildState(guildId, updates)` (bot/state.js lines 89-98): fetch or
lazily create the record for this guild, merge the updates into it. -/
def setGuildState (st : StateStore) (g : GuildId) (u : GuildStateUpdate) : StateStore :=
  fun g2 => if g2 = g then applyUpdate (st g) u else st g2

/-- The per-guild queue Map of services/music/queue.js as a total function;
an untouched key holds the empty list, matching `getOrCreateQueue`. -/
abbrev QueueStore := GuildId → List Song

/-- The queue store before any guild has enqueued anything. -/
def emptyQueues : QueueStore := fun _ => []

/-- Source function `enqueue(guildId, song)` (queue.js lines 57-67): push the song at the
back of this guild's queue and return the new length (the song's 1-based
position). -/
def enqueue (qs : QueueStore) (g : GuildId) (s : Song) : QueueStore × Nat :=
  (fun g2 => if g2 = g then qs g ++ [s] else qs g2, (qs g).length + 1)

/-- Source function `dequeue(guildId)` (queue.js lines 77-89): return null on an empty
queue, otherwise shift off and return the head. -/
def dequeue (qs : QueueStore) (g : GuildId) : QueueStore × Option Song :=
  match qs g with
  | [] => (qs, none)
  | s :: rest => (fun g2 => if g2 = g then rest else qs g2, some s)

/-- Source function `clearQueue(guildId)` (queue.js lines 127-130): replace this guild's
queue with the empty list. -/
def clearQueue (qs : QueueStore) (g : GuildId) : QueueStore :=
  fun g2 => if g2 = g then [] else qs g2

/-- Some example songs used as concrete inputs in witnesses and
counterexamples. -/
def songA : Song := { title := "a", url := "ua", duration := 100, thumbnail := "ta" }

def songB : Song := { title := "b", url := "ub", duration := 200, thumbnail := "tb" }

def songC : Song := { title := "c", url := "uc", duration := 300, thumbnail := "tc" }

/-- C1.  Queue FIFO with total operations: enqueue a, b, c onto an
initially empty queue for session g; the first three dequeues return
a, b, c in order, the fourth returns none, and dequeue on a never-touched
session returns none rather than raising an error (all queue operations
are total over the implicit-default-empty queue). -/
theorem queue_fifo (qs : QueueStore) (g g2 : GuildId) (a b c : Song)
    (h : qs g = []) :
    (dequeue (enqueue (enqueue (enqueue qs g a).1 g b).1 g c).1 g).2 = some a ∧
    (dequeue (dequeue (enqueue (enqueue (enqueue qs g a).1 g b).1 g c).1 g).1 g).2 = some b ∧
    (dequeue (dequeue (dequeue (enqueue (enqueue (enqueue qs g a).1 g b).1 g c).1 g).1 g).1 g).2
      = some c ∧
    (dequeue (dequeue (dequeue (dequeue
        (enqueue (enqueue (enqueue qs g a).1 g b).1 g c).1 g).1 g).1 g).1 g).2 = none ∧
    (dequeue emptyQueues g2).2 = none := by
  simp [enqueue, dequeue, emptyQueues, h]

/-- Witness for C1 at concrete inputs: the empty store, session "g1",
bystander session "g2", and three concrete songs. -/
theorem queue_fifo_witness :
    (dequeue (enqueue (enqueue (enqueue emptyQueues "g1" songA).1 "g1" songB).1 "g1" songC).1
        "g1").2 = some songA ∧
    (dequeue (dequeue (enqueue (enqueue (enqueue emptyQueues "g1" songA).1 "g1" songB).1 "g1"
        songC).1 "g1").1 "g1").2 = some songB ∧
    (dequeue (dequeue (dequeue (enqueue (enqueue (enqueue emptyQueues "g1" songA).1 "g1"
        songB).1 "g1" songC).1 "g1").1 "g1").1 "g1").2 = some songC ∧
    (dequeue (dequeue (dequeue (dequeue (enqueue (enqueue (enqueue emptyQueues "g1" songA).1
        "g1" songB).1 "g1" songC).1 "g1").1 "g1").1 "g1").1 "g1").2 = none ∧
    (dequeue emptyQueues "g2").2 = none :=
  queue_fifo emptyQueues "g1" "g2" songA songB songC rfl

/-- One session's world: its state record, its queue at the music service,
and the externally visible resources the driver manipulates —
which status messages currently exist in the text channel, whether the
session's voice connection is live (not destroyed), whether the audio
player still has its Idle completion listener attached, and whether it is
actively rendering audio.  `nextId` supplies fresh handles. -/
structure World where
  gstate : GuildState
  queue : List Song
  liveMessages : List Nat
  connAlive : Bool
  playerIdleListener : Bool
  playerActive : Bool
  nextId : Nat
deriving DecidableEq, Repr

/-- Source function `resetGuildState(guildId)` (bot/state.js lines 108-130): clear the
progress timer if any (an external timer cancellation, no further world
effect here) and replace the record with the defaults. -/
def resetGuildState (w : World) : World :=
  { w with gstate := defaultGuildState }

/-- Source function `clearNowPlayingMessage(guildId)` (bot/music/embed.js lines 251-260):
if a status message reference is held, delete the external message and
null the reference; otherwise do nothing. -/
def clearNowPlayingMessage (w : World) : World :=
  match w.gstate.statusMessage with
  | none => w
  | some m =>
      { w with
        liveMessages := w.liveMessages.erase m
        gstate := applyUpdate w.gstate { statusMessage := some none } }

/-- Source function `updateNowPlayingMessage(guildId, upNextQueue)` (bot/music/embed.js
lines 184-244), restricted to its effect on the session world: with no
current song it deletes the status message exactly as
`clearNowPlayingMessage` does; with a current song it edits the existing
message in place, or sends a fresh one when none exists and a text channel
is registered (`textChOk`).  The embed contents themselves are external
rendering. -/
def updateNowPlayingMessage (w : World) (textChOk : Bool) : World :=
  match w.gstate.currentSong with
  | none => clearNowPlayingMessage w
  | some _ =>
      match w.gstate.statusMessage with
      | some _ => w
      | none =>
          if textChOk then
            { w with
              liveMessages := w.nextId :: w.liveMessages
              gstate := applyUpdate w.gstate { statusMessage := some (some w.nextId) }
              nextId := w.nextId + 1 }
          else w

/-- Source function `stop(guildId)` (bot/music/player.js lines 485-516), in source order:
detach the player's Idle listener and halt it (if a player is held),
destroy the voice connection (if held and not already destroyed), clear
the music-service queue (DELETE /queue/guildId, i.e. `clearQueue`), clear
the Now Playing message, then reset the guild state to the defaults. -/
def stop (w : World) : World :=
  let w1 :=
    if w.gstate.currentPlayer.isSome then
      { w with playerIdleListener := false, playerActive := false }
    else w
  let w2 :=
    if w1.gstate.currentConnection.isSome && w1.connAlive then
      { w1 with connAlive := false }
    else w1
  let w3 := { w2 with queue := [] }
  let w4 := clearNowPlayingMessage w3
  resetGuildState w4

/-- C6.  Idempotent stop: for every session world, stopping twice yields
exactly the same world as stopping once, that world carries the Idle
default state record, and its queue is empty.  The second call completes
without error — the embedded `stop` is a total function, matching the
source, where every step of the second call is guarded (`if
state.currentPlayer`, `if state.currentConnection`, try/catch around the
queue DELETE, the null check inside `clearNowPlayingMessage`). -/
theorem stop_idempotent (w : World) :
    stop (stop w) = stop w ∧ (stop w).gstate = defaultGuildState ∧ (stop w).queue = [] := by
  obtain ⟨⟨pl, ps, ip, cs, cp, cc, sm, st, pt⟩, q, msgs, ca, pil, pa, nid⟩ := w
  cases cp <;> cases cc <;> cases sm <;> cases ca <;>
    simp [stop, clearNowPlayingMessage, resetGuildState, applyUpdate, defaultGuildState]

/-- The all-defaults state store, used as a concrete input in witnesses. -/
def store0 : StateStore := fun _ => defaultGuildState

/-- A concrete partial update touching two fields, used in the C10
witness. -/
def update0 : GuildStateUpdate :=
  { isPlaying := some true, currentSong := some (some songA) }

/-- C10.  Partial state updates are framing: `setGuildState g updates`
gives every field of session g's record the updated value when the update
object carries that field and the previous value when it does not
(`Option.getD` states both at once), and every other session's record is
untouched. -/
theorem setGuildState_frame (st : StateStore) (g : GuildId) (u : GuildStateUpdate) :
    (setGuildState st g u g).isPlaying = u.isPlaying.getD (st g).isPlaying ∧
    (setGuildState st g u g).isPaused = u.isPaused.getD (st g).isPaused ∧
    (setGuildState st g u g).isIntroPlaying = u.isIntroPlaying.getD (st g).isIntroPlaying ∧
    (setGuildState st g u g).currentSong = u.currentSong.getD (st g).currentSong ∧
    (setGuildState st g u g).currentPlayer = u.currentPlayer.getD (st g).currentPlayer ∧
    (setGuildState st g u g).currentConnection
      = u.currentConnection.getD (st g).currentConnection ∧
    (setGuildState st g u g).statusMessage = u.statusMessage.getD (st g).statusMessage ∧
    (setGuildState st g u g).songStartTime = u.songStartTime.getD (st g).songStartTime ∧
    (setGuildState st g u g).progressTimer = u.progressTimer.getD (st g).progressTimer ∧
    ∀ g2, g2 ≠ g → setGuildState st g u g2 = st g2 :=
  ⟨by simp [setGuildState, applyUpdate], by simp [setGuildState, applyUpdate],
   by simp [setGuildState, applyUpdate], by simp [setGuildState, applyUpdate],
   by simp [setGuildState, applyUpdate], by simp [setGuildState, applyUpdate],
   by simp [setGuildState, applyUpdate], by simp [setGuildState, applyUpdate],
   by simp [setGuildState, applyUpdate],
   fun g2 h => by simp [setGuildState, h]⟩

/-- Witness for C10 at concrete inputs: updating session "g1" of the
default store with `update0` sets the named field, keeps an unnamed field,
and leaves session "g2" untouched. -/
theorem setGuildState_frame_witness :
    (setGuildState store0 "g1" update0 "g1").isPlaying
      = update0.isPlaying.getD (store0 "g1").isPlaying ∧
    (setGuildState store0 "g1" update0 "g1").isPaused
      = update0.isPaused.getD (store0 "g1").isPaused ∧
    setGuildState store0 "g1" update0 "g2" = store0 "g2" :=
  ⟨(setGuildState_frame store0 "g1" update0).1,
   (setGuildState_frame store0 "g1" update0).2.1,
   (setGuildState_frame store0 "g1" update0).2.2.2.2.2.2.2.2.2 "g2" (by decide)⟩

/-- The update the DJ branch of `startPlayback` installs before consulting
the narrator (bot/music/player.js lines 221-229): current song, player and
connection are recorded, `isPlaying` and `isIntroPlaying` are raised,
`isPaused` lowered, and `songStartTime` explicitly nulled. -/
def djIntroUpdate (song : Song) (player : Nat) (conn : VoiceConn) : GuildStateUpdate :=
  { currentSong := some (some song)
    currentPlayer := some (some player)
    currentConnection := some (some conn)
    isPlaying := some true
    isIntroPlaying := some true
    isPaused := some false
    songStartTime := some none }

/-- The update `playSong` installs once the track's audio stream starts
(bot/music/player.js lines 342-350): playing, not paused, not intro, the
track recorded as current, and `songStartTime` set to the wall clock
`now` (milliseconds). -/
def playSongUpdate (song : Song) (player : Nat) (conn : VoiceConn) (now : Nat) :
    GuildStateUpdate :=
  { isPlaying := some true
    isPaused := some false
    isIntroPlaying := some false
    currentSong := some (some song)
    currentPlayer := some (some player)
    currentConnection := some (some conn)
    songStartTime := some (some now) }

/-- The update the track-finished (AudioPlayerStatus.Idle) handler
installs before the 500ms settling delay (bot/music/player.js lines
381-385): only `isPlaying`, `progressTimer` and `songStartTime` are
cleared — `currentSong` and `currentPlayer` are not touched. -/
def trackFinishedUpdate : GuildStateUpdate :=
  { isPlaying := some false
    progressTimer := some none
    songStartTime := some none }

/-- Source function `pause(guildId)` (bot/music/player.js lines 447-459): refuse (false,
state untouched) when no player is held, nothing is playing, or already
paused; otherwise freeze the player and raise `isPaused`.  Total — never
throws. -/
def pause (s : GuildState) : GuildState × Bool :=
  if s.currentPlayer.isNone || !s.isPlaying || s.isPaused then (s, false)
  else (applyUpdate s { isPaused := some true }, true)

/-- Source function `resume(guildId)` (bot/music/player.js lines 466-478): refuse (false,
state untouched) when no player is held or not paused; otherwise unpause
the player and lower `isPaused`.  Total — never throws.  Note that
`songStartTime` is not touched. -/
def resume (s : GuildState) : GuildState × Bool :=
  if s.currentPlayer.isNone || !s.isPaused then (s, false)
  else (applyUpdate s { isPaused := some false }, true)

/-- The elapsed-seconds computation of the status update
(bot/music/embed.js lines 201-208): zero without a start timestamp,
otherwise floor of (now - songStartTime) / 1000, both in milliseconds. -/
def elapsedSeconds (nowMs : Nat) (s : GuildState) : Nat :=
  match s.songStartTime with
  | none => 0
  | some t0 => (nowMs - t0) / 1000

/-- The session state during a DJ intro, exactly as the DJ branch of
`startPlayback` creates it from the Idle defaults. -/
def introPhaseState : GuildState :=
  applyUpdate defaultGuildState (djIntroUpdate songA 0 ⟨5⟩)

/-- Counterexample to C5 as stated: in the PlayingIntro phase
(`isIntroPlaying` raised, exactly the state the DJ branch installs) the
source's `pause` succeeds — it returns true and freezes the intro — even
though the claim says pause succeeds only from PlayingTrack, not during
PlayingIntro. -/
theorem pause_in_intro_counterexample :
    introPhaseState.isIntroPlaying = true ∧ (pause introPhaseState).2 = true := by
  decide

/-- C5 amended.  The guards `pause` and `resume` actually implement:
`pause` succeeds exactly when a player is held, `isPlaying` is true and
not already paused — which includes the PlayingIntro phase, since the DJ
branch raises `isPlaying` together with `isIntroPlaying` — and `resume`
succeeds exactly when a player is held and the session is paused.  On
failure each returns false with the session state unchanged, and both are
total (never throw). -/
theorem pause_resume_guards (s : GuildState) :
    ((pause s).2 = true ↔
      (s.currentPlayer.isSome = true ∧ s.isPlaying = true ∧ s.isPaused = false)) ∧
    ((pause s).2 = false → (pause s).1 = s) ∧
    ((resume s).2 = true ↔ (s.currentPlayer.isSome = true ∧ s.isPaused = true)) ∧
    ((resume s).2 = false → (resume s).1 = s) := by
  obtain ⟨pl, ps, ip, cs, cp, cc, sm, st, pt⟩ := s
  cases cp <;> cases pl <;> cases ps <;>
    simp [pause, resume, applyUpdate]

/-- Witness for C5's amended theorem at a concrete input: on the Idle
defaults both operations fail and leave the state unchanged. -/
theorem pause_resume_guards_witness :
    (pause defaultGuildState).1 = defaultGuildState ∧
    (resume defaultGuildState).1 = defaultGuildState :=
  ⟨(pause_resume_guards defaultGuildState).2.1 (by decide),
   (pause_resume_guards defaultGuildState).2.2.2 (by decide)⟩

/-- C4: evaluation of the source at the claim's scenario.  A track starts
at T0 = 0ms (`playSongUpdate` records songStartTime = 0), `pause` is
called at T0+5s and succeeds, `resume` at T0+35s and succeeds; the status
update immediately after resume computes elapsed = (35000 - 0)/1000 = 35
seconds, not 5 — neither `pause` nor `resume` records or subtracts the
paused interval, and `songStartTime` is left at T0. -/
theorem resume_elapsed_time_bug :
    (pause (applyUpdate defaultGuildState (playSongUpdate songA 0 ⟨5⟩ 0))).2 = true ∧
    (resume (pause (applyUpdate defaultGuildState (playSongUpdate songA 0 ⟨5⟩ 0))).1).2
      = true ∧
    ((resume (pause (applyUpdate defaultGuildState (playSongUpdate songA 0 ⟨5⟩ 0))).1).1
      |>.songStartTime) = some 0 ∧
    elapsedSeconds 35000
      ((resume (pause (applyUpdate defaultGuildState (playSongUpdate songA 0 ⟨5⟩ 0))).1).1)
      = 35 ∧
    elapsedSeconds 35000
      ((resume (pause (applyUpdate defaultGuildState (playSongUpdate songA 0 ⟨5⟩ 0))).1).1)
      ≠ 5 := by
  decide

/-- Responses of the external collaborators during one advance cycle:
whether DJ mode is on for the guild (`getDJMode`), what POST /dj-intro
returns for the intro text (`none` embeds both "AI service offline" and a
missing text field, the two cases `callAIService`/`djResult?.text`
collapse to null), and what POST /tts returns for the synthesized audio
file path. -/
structure Collab where
  djEnabled : Bool
  introText : Option String
  ttsPath : Option String
deriving Repr

/-- Source function `ensureVoiceConnection(voiceChannel)` (bot/music/player.js lines
132-169): reuse the stored connection when it exists and is not
destroyed; otherwise join the channel, await readiness (the success case
— a readiness timeout throws into `startPlayback`'s catch), and store the
new connection with `setGuildState`. -/
def ensureVoiceConnection (w : World) (chan : Nat) : World × VoiceConn :=
  match w.gstate.currentConnection with
  | some conn =>
      if w.connAlive then (w, conn)
      else
        ({ w with
            connAlive := true
            gstate := applyUpdate w.gstate
              { currentConnection := some (some (⟨chan⟩ : VoiceConn)) } },
         (⟨chan⟩ : VoiceConn))
  | none =>
      ({ w with
          connAlive := true
          gstate := applyUpdate w.gstate
            { currentConnection := some (some (⟨chan⟩ : VoiceConn)) } },
       (⟨chan⟩ : VoiceConn))

/-- The synchronous body of `playSong` (bot/music/player.js lines
322-420) up to the attachment of the completion listeners: start the
audio stream on the player, install `playSongUpdate` with the wall clock
`now`, refresh the Now Playing message, create the 10s progress interval
and store its id, attach the Idle/error listeners.  Returns the new world
and the states the cycle's `setGuildState` calls produced, in order. -/
def playSong (w : World) (conn : VoiceConn) (player : Nat) (song : Song)
    (textChOk : Bool) (now : Nat) : World × List GuildState :=
  let w1 := { w with playerActive := true }
  let w2 := { w1 with gstate := applyUpdate w1.gstate (playSongUpdate song player conn now) }
  let w3 := updateNowPlayingMessage w2 textChOk
  let w4 := { w3 with
    nextId := w3.nextId + 1
    gstate := applyUpdate w3.gstate { progressTimer := some (some w3.nextId) } }
  let w5 := { w4 with playerIdleListener := true }
  (w5, [w2.gstate, w3.gstate, w4.gstate])

/-- Result of one sequential advance cycle: the final world, the trace of
session states after each `setGuildState` of the cycle, which track
reached `playSong` (if any), whether intro audio was actually rendered,
and whether a voice connection was ensured. -/
structure RunOut where
  world : World
  trace : List GuildState
  playedSong : Option Song
  playedIntro : Bool
  connected : Bool
deriving Repr

/-- One sequential (uninterleaved) run of `startPlayback(guildId,
voiceChannel)` (bot/music/player.js lines 180-263), parameterised by the
collaborator responses: the `isPlaying` guard; POST /next (a `dequeue` at
the music service); on null, `resetGuildState` THEN
`clearNowPlayingMessage`, in that source order; otherwise
`ensureVoiceConnection`, player reuse or creation, and either the DJ
branch — `djIntroUpdate`, status refresh, narrator consultation, and
`playTTSThenSong` when both text and audio arrive, else direct fallback —
or plain `playSong`. -/
def startPlaybackRun (w : World) (c : Collab) (textChOk : Bool) (chan : Nat) (now : Nat) :
    RunOut :=
  if w.gstate.isPlaying then
    { world := w, trace := [], playedSong := none, playedIntro := false, connected := false }
  else
    match w.queue with
    | [] =>
        let w1 := resetGuildState w
        let w2 := clearNowPlayingMessage w1
        { world := w2, trace := [w1.gstate], playedSong := none, playedIntro := false
          connected := false }
    | song :: rest =>
        let wq := { w with queue := rest }
        let pr := ensureVoiceConnection wq chan
        let w2 := pr.1
        let conn := pr.2
        let player := w2.gstate.currentPlayer.getD w2.nextId
        let w3 := if w2.gstate.currentPlayer.isSome then w2
                  else { w2 with nextId := w2.nextId + 1 }
        if c.djEnabled then
          let w4 := { w3 with gstate := applyUpdate w3.gstate (djIntroUpdate song player conn) }
          let w5 := updateNowPlayingMessage w4 textChOk
          match c.introText with
          | some _ =>
              match c.ttsPath with
              | some _ =>
                  let w6 := { w5 with playerActive := true }
                  let w7 := { w6 with
                    gstate := applyUpdate w6.gstate { isIntroPlaying := some false } }
                  let pr2 := playSong w7 conn player song textChOk now
                  { world := pr2.1, trace := [w4.gstate, w5.gstate, w7.gstate] ++ pr2.2
                    playedSong := some song, playedIntro := true, connected := true }
              | none =>
                  let pr2 := playSong w5 conn player song textChOk now
                  { world := pr2.1, trace := [w4.gstate, w5.gstate] ++ pr2.2
                    playedSong := some song, playedIntro := false, connected := true }
          | none =>
              let pr2 := playSong w5 conn player song textChOk now
              { world := pr2.1, trace := [w4.gstate, w5.gstate] ++ pr2.2
                playedSong := some song, playedIntro := false, connected := true }
        else
          let pr2 := playSong w3 conn player song textChOk now
          { world := pr2.1, trace := pr2.2, playedSong := some song, playedIntro := false
            connected := true }

/-- A fresh session world: Idle default state, given queue, no external
resources. -/
def freshWorld (q : List Song) : World :=
  { gstate := defaultGuildState, queue := q, liveMessages := [], connAlive := false
    playerIdleListener := false, playerActive := false, nextId := 0 }

/-- Counterexample to C3 as stated: with DJ mode enabled and the narrator
returning none for the intro text, the cycle still sets `isIntroPlaying`
to true at one point — the DJ branch raises it before the narrator is
consulted — so the flag is not raised only while an intro is actually
playing. -/
theorem narration_degrade_counterexample :
    ((startPlaybackRun (freshWorld [songA]) ⟨true, none, none⟩ true 7 1000).trace.any
      (fun s => s.isIntroPlaying)) = true := by
  decide

/-- C3 amended.  With DJ mode enabled and the narrator returning none for
the intro text, the dequeued track still plays directly — `playSong`
receives it, no intro audio is rendered, and the cycle ends playing the
track with `isIntroPlaying` false — but `isIntroPlaying` is raised at the
start of the DJ branch, before the narrator is consulted, and lowered
only when the track starts, so during that window it is true without any
intro playing. -/
theorem narration_degrade (w : World) (c : Collab) (textChOk : Bool) (chan now : Nat)
    (song : Song) (rest : List Song)
    (hp : w.gstate.isPlaying = false) (hq : w.queue = song :: rest)
    (hd : c.djEnabled = true) (hi : c.introText = none) :
    (startPlaybackRun w c textChOk chan now).playedSong = some song ∧
    (startPlaybackRun w c textChOk chan now).playedIntro = false ∧
    (startPlaybackRun w c textChOk chan now).world.gstate.isIntroPlaying = false ∧
    (startPlaybackRun w c textChOk chan now).world.gstate.isPlaying = true ∧
    (startPlaybackRun w c textChOk chan now).world.gstate.currentSong = some song ∧
    (startPlaybackRun w c textChOk chan now).trace.any (fun s => s.isIntroPlaying) = true := by
  obtain ⟨⟨pl, ps, ip, cs, cp, cc, sm, st, pt⟩, q, msgs, ca, pil, pa, nid⟩ := w
  obtain ⟨dj, it, tts⟩ := c
  simp only at hp hq hd hi
  subst hp hq hd hi
  cases cc <;> cases ca <;> cases cp <;> cases sm <;> cases textChOk <;>
    simp [startPlaybackRun, ensureVoiceConnection, playSong, updateNowPlayingMessage,
      clearNowPlayingMessage, applyUpdate, djIntroUpdate, playSongUpdate]

/-- Witness for C3's amended theorem at concrete inputs: fresh session,
queue holding one song, DJ on, narrator text none. -/
theorem narration_degrade_witness :
    (startPlaybackRun (freshWorld [songB]) ⟨true, none, some "f.wav"⟩ true 7 0).playedSong
      = some songB ∧
    (startPlaybackRun (freshWorld [songB]) ⟨true, none, some "f.wav"⟩ true 7 0).playedIntro
      = false ∧
    (startPlaybackRun (freshWorld [songB]) ⟨true, none, some "f.wav"⟩ true 7
      0).world.gstate.isIntroPlaying = false ∧
    (startPlaybackRun (freshWorld [songB]) ⟨true, none, some "f.wav"⟩ true 7
      0).world.gstate.isPlaying = true ∧
    (startPlaybackRun (freshWorld [songB]) ⟨true, none, some "f.wav"⟩ true 7
      0).world.gstate.currentSong = some songB ∧
    (startPlaybackRun (freshWorld [songB]) ⟨true, none, some "f.wav"⟩ true 7 0).trace.any
      (fun s => s.isIntroPlaying) = true :=
  narration_degrade (freshWorld [songB]) ⟨true, none, some "f.wav"⟩ true 7 0 songB []
    rfl rfl rfl rfl

/-- The session world just after its only queued track finished playing:
one full advance cycle from a fresh session (DJ off, text channel
registered, track started at t=0), then the Idle-handler update
(`trackFinishedUpdate`) that runs when the player signals completion,
before the 500ms settling delay and the re-entry into `startPlayback`.
The cycle posted the Now Playing message with handle 1. -/
def afterFirstTrack : World :=
  let r := startPlaybackRun (freshWorld [songA]) ⟨false, none, none⟩ true 7 0
  { r.world with gstate := applyUpdate r.world.gstate trackFinishedUpdate }

/-- C7: evaluation of the source at the claim's scenario.  Starting
playback on `afterFirstTrack` — queue empty, a Now Playing message (handle
1) still live and referenced — resets the session to the Idle defaults,
acquires no voice-binding playback resource (the run returns before
`ensureVoiceConnection`, `connected` and `playerActive` stay false), and
plays nothing; but the external Now Playing message survives: the run
calls `resetGuildState` before `clearNowPlayingMessage`, so the message
reference is already nulled when the clear runs and the delete is skipped
— the externally visible status is never cleared. -/
theorem queue_exhaustion_bug :
    afterFirstTrack.gstate.statusMessage = some 1 ∧
    afterFirstTrack.liveMessages = [1] ∧
    (startPlaybackRun afterFirstTrack ⟨false, none, none⟩ true 7 500).world.gstate
      = defaultGuildState ∧
    (startPlaybackRun afterFirstTrack ⟨false, none, none⟩ true 7 500).connected = false ∧
    (startPlaybackRun afterFirstTrack ⟨false, none, none⟩ true 7 500).world.playerActive
      = (afterFirstTrack).playerActive ∧
    (startPlaybackRun afterFirstTrack ⟨false, none, none⟩ true 7 500).playedSong = none ∧
    (startPlaybackRun afterFirstTrack ⟨false, none, none⟩ true 7 500).world.liveMessages
      = [1] := by
  decide

/-- The session state inside the settling window: after the track's
terminal condition ran the Idle handler and before the advance cycle
re-enters. -/
def settlingState : GuildState := afterFirstTrack.gstate

/-- Counterexample to C9 as stated: in the settling window between a
track's terminal condition and the re-entry into the advance cycle, the
Idle handler has lowered `isPlaying` but `currentSong` and
`currentPlayer` are still set — the three conditions of the claimed
invariant are not mutually equivalent there. -/
theorem idle_invariant_counterexample :
    settlingState.isPlaying = false ∧
    settlingState.currentSong = some songA ∧
    settlingState.currentPlayer = some 0 := by
  decide

/-- C9 amended.  The three-way equivalence (not playing ⇔ no current
track ⇔ no player handle) holds at the Idle defaults — the state of a
never-touched session, of every `resetGuildState` result, and of every
`stop` result — but it does not hold in every reachable state: in the
settling window after a track finishes, `isPlaying` is false while
`currentSong` and `currentPlayer` remain set until the next cycle resets
or overwrites them. -/
theorem idle_invariant_amended :
    (defaultGuildState.isPlaying = false ∧ defaultGuildState.currentSong = none ∧
      defaultGuildState.currentPlayer = none) ∧
    (∀ w : World, (stop w).gstate.isPlaying = false ∧ (stop w).gstate.currentSong = none ∧
      (stop w).gstate.currentPlayer = none) ∧
    (∀ w : World, (resetGuildState w).gstate = defaultGuildState) ∧
    (settlingState.isPlaying = false ∧ settlingState.currentSong ≠ none ∧
      settlingState.currentPlayer ≠ none) := by
  refine ⟨by decide, fun w => ?_, fun w => rfl, by decide⟩
  simp [stop, resetGuildState, defaultGuildState]

/-- Program points of one `startPlayback` invocation, separated by its
`await` suspension points; the code between two points runs atomically on
the single-threaded event loop.  `entry` is the synchronous prefix up to
and including the `isPlaying` guard (line 186) and the issuing of POST
/next; `awaitNext` is the suspension at that await (line 193);
`gotNext r` holds the delivered response (line 195); `awaitConn s` is the
suspension inside `ensureVoiceConnection` (line 206); the `done` points
are the three ways the invocation returns: refused by the guard, returned
on empty queue, or playing a track. -/
inductive SPPC where
  | entry
  | awaitNext
  | gotNext : Option Song → SPPC
  | awaitConn : Song → VoiceConn → SPPC
  | doneNoop
  | doneEmpty
  | doneStarted : Song → SPPC
deriving DecidableEq, Repr

/-- Resolve the current suspension of one `startPlayback` invocation (DJ
mode off, no text channel registered) and run the following synchronous
segment: exactly the code of bot/music/player.js between two awaits.
`acquired` accumulates the tracks the /next handler has removed from the
queue. -/
def stepStartPlayback (w : World) (pc : SPPC) (acquired : List Song) (chan : Nat)
    (now : Nat) : World × SPPC × List Song :=
  match pc with
  | .entry =>
      if w.gstate.isPlaying then (w, .doneNoop, acquired)
      else (w, .awaitNext, acquired)
  | .awaitNext =>
      match w.queue with
      | [] => (w, .gotNext none, acquired)
      | song :: rest => ({ w with queue := rest }, .gotNext (some song), acquired ++ [song])
  | .gotNext none =>
      (clearNowPlayingMessage (resetGuildState w), .doneEmpty, acquired)
  | .gotNext (some song) =>
      let pr := ensureVoiceConnection w chan
      (pr.1, .awaitConn song pr.2, acquired)
  | .awaitConn song conn =>
      let player := w.gstate.currentPlayer.getD w.nextId
      let w2 := if w.gstate.currentPlayer.isSome then w else { w with nextId := w.nextId + 1 }
      let pr := playSong w2 conn player song false now
      (pr.1, .doneStarted song, acquired)
  | .doneNoop => (w, .doneNoop, acquired)
  | .doneEmpty => (w, .doneEmpty, acquired)
  | .doneStarted s => (w, .doneStarted s, acquired)

/-- Two `startPlayback` invocations (A and B) for the same session
interleaving on the event loop. -/
structure RaceState where
  w : World
  pcA : SPPC
  pcB : SPPC
  acquired : List Song
deriving Repr

/-- Run one scheduler step: the named invocation resolves its suspension
and runs its next synchronous segment. -/
def raceStep (chan now : Nat) (rs : RaceState) (isA : Bool) : RaceState :=
  if isA then
    let r := stepStartPlayback rs.w rs.pcA rs.acquired chan now
    { rs with w := r.1, pcA := r.2.1, acquired := r.2.2 }
  else
    let r := stepStartPlayback rs.w rs.pcB rs.acquired chan now
    { rs with w := r.1, pcB := r.2.1, acquired := r.2.2 }

/-- Run a whole interleaving schedule (true = invocation A steps, false =
invocation B steps). -/
def runRace (chan now : Nat) (sched : List Bool) (rs : RaceState) : RaceState :=
  sched.foldl (raceStep chan now) rs

/-- Both invocations start at `entry` on an Idle session whose queue
holds two tracks. -/
def raceInit : RaceState :=
  { w := freshWorld [songA, songB], pcA := .entry, pcB := .entry, acquired := [] }

/-- The schedule of two invocations issued in immediate succession: each
of the two calls runs its synchronous prefix before either await
resolves, then the pending operations complete in order. -/
def backToBack : List Bool := [true, false, true, false, true, false, true, false]

/-- C2: evaluation of the source at the claim's scenario.  Two
`startPlayback` invocations issued back-to-back on an Idle session both
pass the `isPlaying` guard — the guard is checked before the awaited POST
/next, and `isPlaying` is only raised after further awaits — so each
dequeues a track and runs its own `playSong` cycle: two tracks are
acquired and neither invocation is the claimed no-op. -/
theorem start_reentrancy_bug :
    (runRace 7 0 backToBack raceInit).acquired = [songA, songB] ∧
    (runRace 7 0 backToBack raceInit).pcA = .doneStarted songA ∧
    (runRace 7 0 backToBack raceInit).pcB = .doneStarted songB ∧
    (runRace 7 0 backToBack raceInit).pcB ≠ .doneNoop := by
  decide

/-- Source function `execute(oldState, newState)` of bot/events/voiceStateUpdate.js
(lines 566-660), as the number of `stop(guildId)` invocations the event
eventually causes.  `eventIsBot` says the event's member is the bot
itself; `oldCh`/`newCh` are the channels before and after; counts and
channel existence are sampled twice, at event time and at the 30-second
grace-timer fire — the fire-time re-count is authoritative.  Case 1 (the
bot itself was disconnected) stops immediately; case 2 (someone left the
bot's channel while it is connected and playing and no non-bot member
remains) schedules one grace timer, whose body stops only when the
channel still exists and is still empty of non-bot members. -/
def voiceStateUpdateStops (s : GuildState) (eventIsBot : Bool) (oldCh newCh : Option Nat)
    (chExistsAtEvent : Bool) (humansAtEvent : Nat)
    (chExistsAtFire : Bool) (humansAtFire : Nat) : Nat :=
  if eventIsBot = true ∧ oldCh.isSome = true ∧ newCh = none then 1
  else if oldCh.isSome = true ∧ oldCh ≠ newCh then
    match s.currentConnection with
    | none => 0
    | some conn =>
        if s.isPlaying = false then 0
        else if oldCh ≠ some conn.channelId then 0
        else if chExistsAtEvent = false then 0
        else if humansAtEvent = 0 then
          if chExistsAtFire = true ∧ humansAtFire = 0 then 1 else 0
        else 0
  else 0

/-- C8.  Presence auto-stop: a non-bot participant leaves the channel the
session is bound to while it is actively playing, leaving zero non-bot
participants; if the channel is still empty of non-bot participants when
the 30-second grace timer fires, `stop` is invoked exactly once for the
session, and if any non-bot participant is back at fire time, `stop` is
not invoked — the re-count at fire time is authoritative. -/
theorem presence_auto_stop (s : GuildState) (conn : VoiceConn) (newCh : Option Nat)
    (humansAtFire : Nat)
    (hconn : s.currentConnection = some conn) (hplay : s.isPlaying = true)
    (hleft : newCh ≠ some conn.channelId) :
    (humansAtFire = 0 →
      voiceStateUpdateStops s false (some conn.channelId) newCh true 0 true humansAtFire
        = 1) ∧
    (0 < humansAtFire →
      voiceStateUpdateStops s false (some conn.channelId) newCh true 0 true humansAtFire
        = 0) := by
  have hne : some conn.channelId ≠ newCh := fun e => hleft e.symm
  constructor
  · intro h0
    simp [voiceStateUpdateStops, hconn, hplay, hne, h0]
  · intro hpos
    have hne0 : humansAtFire ≠ 0 := Nat.pos_iff_ne_zero.mp hpos
    simp [voiceStateUpdateStops, hconn, hplay, hne, hne0]

/-- A session state actively playing through a connection bound to
channel 7, as `playSong` creates it. -/
def playingState7 : GuildState :=
  applyUpdate defaultGuildState (playSongUpdate songA 0 ⟨7⟩ 0)

/-- Witness for C8 at concrete inputs: a human leaves channel 7 (to no
channel) while the session plays there; with the channel still empty at
fire time stop is invoked once, with two humans back at fire time it is
not invoked. -/
theorem presence_auto_stop_witness :
    voiceStateUpdateStops playingState7 false (some 7) none true 0 true 0 = 1 ∧
    voiceStateUpdateStops playingState7 false (some 7) none true 0 true 2 = 0 :=
  ⟨(presence_auto_stop playingState7 ⟨7⟩ none 0 rfl rfl (by decide)).1 rfl,
   (presence_auto_stop playingState7 ⟨7⟩ none 2 rfl rfl (by decide)).2 (by decide)⟩
